import Mathlib

/-!
Verification of the sarvatra-ai authentication and credential-protection core.

Shallow embedding of:
- `src/server/routes.ts` (encryptApiKey, decryptApiKey, sanitizeUser, the
  login / register / admin handlers, SESSION_SECRET startup validation);
- `src/server/auth/jwt-utils.ts` (generateToken, verifyToken);
- `src/server/auth/auth-middleware.ts` (authenticateToken);
- the MemStorage user store (createUser, updateUser, lookups).

External cryptographic primitives (scrypt, AES-256-GCM, HMAC signing of
JWTs, bcrypt) are not part of the repository; they are modelled by
idealized executable functions that keep the contracts the wrapper code
relies on (AEAD roundtrip and tag check, unforgeable MAC, deterministic
salted hash).  Randomness (salts, IVs, fresh ids, clock reads) is made
explicit as parameters.  Byte strings are `List Nat` with values below
256; JS strings that are split and joined character by character are
`List Char`.
-/

/-- Primitive JSON-like values appearing in HTTP response bodies. -/
inductive Prim where
  | str (s : String)
  | num (n : Nat)
  | bool (b : Bool)
  | null
deriving DecidableEq, Repr

/-- The persisted account record (users table in the shared schema). -/
structure User where
  id : String
  username : String
  password : String
  role : String
  status : String
  openaiApiKey : Option String
  createdAt : Nat
  lastLoginAt : Option Nat
deriving DecidableEq, Repr

/-- Render an optional string field of a JS object. -/
def optStr : Option String → Prim
  | none => Prim.null
  | some s => Prim.str s

/-- Render an optional numeric (timestamp) field of a JS object. -/
def optNum : Option Nat → Prim
  | none => Prim.null
  | some n => Prim.num n

/-- The full user object as the JS code holds it: every field present. -/
def userObj (u : User) : List (String × Prim) :=
  [("id", Prim.str u.id), ("username", Prim.str u.username),
   ("password", Prim.str u.password), ("role", Prim.str u.role),
   ("status", Prim.str u.status), ("openaiApiKey", optStr u.openaiApiKey),
   ("createdAt", Prim.num u.createdAt), ("lastLoginAt", optNum u.lastLoginAt)]

/-- sanitizeUser from routes.ts: destructuring removes exactly the
password and openaiApiKey keys and keeps the rest. -/
def sanitizeUser (obj : List (String × Prim)) : List (String × Prim) :=
  obj.filter (fun kv => !(kv.fst == "password" || kv.fst == "openaiApiKey"))

/-- Modelled external primitive (bcrypt.hash at cost 12): idealized
deterministic injective hash. -/
def bcryptHash (password : String) : String :=
  String.append "bcrypt-cost12-" password

/-- Modelled external primitive (bcrypt.compare). -/
def bcryptCompare (password hash : String) : Bool :=
  hash == bcryptHash password

/-- The sixteen lowercase hex digit characters, in value order: the
decimal digits (code points 48 to 57) then a to f (97 to 102). -/
def hexDigits : List Char :=
  (List.range 10).map (fun n => Char.ofNat (48 + n)) ++
    (List.range 6).map (fun n => Char.ofNat (97 + n))

/-- Hex digit character for a value below 16. -/
def hexDigit (n : Nat) : Char := hexDigits.getD n '0'

/-- Numeric value of a hex digit character. -/
def hexVal (c : Char) : Nat := hexDigits.findIdx (fun d => d == c)

/-- Buffer.toString hex encoding: two digits per byte. -/
def hexEncode : List Nat → List Char
  | [] => []
  | b :: bs => hexDigit (b / 16) :: hexDigit (b % 16) :: hexEncode bs

/-- Buffer.from hex decoding: one byte per digit pair. -/
def hexDecode : List Char → List Nat
  | c1 :: c2 :: cs => (hexVal c1 * 16 + hexVal c2) :: hexDecode cs
  | _ => []

/-- JS String.prototype.split on the colon delimiter. -/
def splitOnColon : List Char → List (List Char)
  | [] => [[]]
  | c :: cs =>
    if c = ':' then [] :: splitOnColon cs
    else
      match splitOnColon cs with
      | [] => [[c]]
      | p :: ps => (c :: p) :: ps

/-- Array.prototype.join on the colon delimiter. -/
def joinColon : List (List Char) → List Char
  | [] => []
  | [p] => p
  | p :: ps => p ++ ':' :: joinColon ps

/-- Modelled external primitive (scryptSync key derivation): a
deterministic function of the master secret and the salt. -/
def scryptKey (secret : String) (salt : List Nat) : List Nat :=
  (secret.data.map (fun c => c.toNat % 256)) ++ salt.map (fun b => b % 256)

/-- Modelled external primitive (AES-256-GCM keystream byte at a
position, as a function of key and IV). -/
def keystreamByte (key iv : List Nat) (i : Nat) : Nat :=
  (key.sum + 31 * iv.sum + 7 * i + iv.length) % 256

/-- GCM counter-mode body starting at stream position i: XOR each byte
with the keystream.  Applying it twice restores the input. -/
def gcmApplyFrom (key iv : List Nat) (i : Nat) : List Nat → List Nat
  | [] => []
  | b :: bs => (b ^^^ keystreamByte key iv i) :: gcmApplyFrom key iv (i + 1) bs

/-- GCM encryption and decryption body (XOR with the keystream). -/
def gcmApply (key iv : List Nat) (data : List Nat) : List Nat :=
  gcmApplyFrom key iv 0 data

/-- Modelled external primitive (GCM authentication tag over key, IV and
ciphertext). -/
def gcmTag (key iv ct : List Nat) : List Nat :=
  [(key.sum + iv.sum + ct.sum) % 256, (ct.length + key.length + iv.sum) % 256]

/-- encryptApiKey from routes.ts.  The randomBytes calls for the salt and
the IV are made explicit parameters; the plaintext key is its byte
sequence.  Output format: salt:iv:ciphertext:tag, all hex encoded. -/
def encryptApiKey (secret : String) (salt iv : List Nat) (apiKey : List Nat) : List Char :=
  let key := scryptKey secret salt
  let ct := gcmApply key iv apiKey
  let tag := gcmTag key iv ct
  joinColon [hexEncode salt, hexEncode iv, hexEncode ct, hexEncode tag]

/-- The two internal failure throws inside decryptApiKey's try block:
the explicit invalid-format throw and the tag-check throw from
decipher.final. -/
inductive DecErr where
  | invalidFormat
  | authFailed
deriving DecidableEq, Repr

/-- The single error decryptApiKey rethrows to its caller from its
catch-all block. -/
inductive DecFail where
  | failedToDecrypt
deriving DecidableEq, Repr

/-- The body of decryptApiKey's try block: parse salt:iv:ciphertext:tag,
check the delimiter count, derive the key, verify the tag, decrypt.
The plaintext is only produced when the tag check passes. -/
def decryptApiKeyInner (secret : String) (blob : List Char) : Except DecErr (List Nat) :=
  let parts := splitOnColon blob
  if parts.length = 4 then
    let salt := hexDecode (parts.getD 0 [])
    let iv := hexDecode (parts.getD 1 [])
    let ct := hexDecode (parts.getD 2 [])
    let tag := hexDecode (parts.getD 3 [])
    let key := scryptKey secret salt
    if gcmTag key iv ct = tag then Except.ok (gcmApply key iv ct)
    else Except.error DecErr.authFailed
  else Except.error DecErr.invalidFormat

/-- decryptApiKey from routes.ts: the try/catch wrapper that maps every
internal failure to one generic error. -/
def decryptApiKey (secret : String) (blob : List Char) : Except DecFail (List Nat) :=
  match decryptApiKeyInner secret blob with
  | Except.ok pt => Except.ok pt
  | Except.error _ => Except.error DecFail.failedToDecrypt

/-- The token payload from jwt-utils.ts. -/
structure JWTPayload where
  id : String
  username : String
  role : String
  status : String
deriving DecidableEq, Repr

/-- Modelled external primitive (the HMAC signature jwt.sign computes):
an idealized unforgeable MAC, represented by the signed content
(payload, issuer, audience, expiry) paired with the signing secret. -/
structure MacSig where
  content : JWTPayload × String × String × Nat
  secret : String
deriving DecidableEq, Repr

/-- A signed JWT: payload plus registered claims plus signature. -/
structure SignedToken where
  payload : JWTPayload
  iss : String
  aud : String
  exp : Nat
  sig : MacSig
deriving DecidableEq, Repr

/-- Signing primitive for the idealized MAC. -/
def hmacSign (secret : String) (content : JWTPayload × String × String × Nat) : MacSig :=
  ⟨content, secret⟩

/-- The 24h token lifetime from jwt-utils.ts, in seconds. -/
def jwtExpiresInSeconds : Nat := 86400

/-- generateToken from jwt-utils.ts: issuance is unconditional on the
account's status; the clock read is an explicit parameter. -/
def generateToken (now : Nat) (secret : String) (user : User) : SignedToken :=
  let payload : JWTPayload := ⟨user.id, user.username, user.role, user.status⟩
  let exp := now + jwtExpiresInSeconds
  ⟨payload, "sarvatra-ai", "sarvatra-ai-users", exp,
    hmacSign secret (payload, "sarvatra-ai", "sarvatra-ai-users", exp)⟩

/-- verifyToken from jwt-utils.ts: checks signature, issuer tag, audience
tag and expiry; any failure yields none (the catch returning null). -/
def verifyToken (now : Nat) (secret : String) (tok : SignedToken) : Option JWTPayload :=
  if tok.sig = hmacSign secret (tok.payload, tok.iss, tok.aud, tok.exp)
      ∧ tok.iss = "sarvatra-ai" ∧ tok.aud = "sarvatra-ai-users" ∧ now < tok.exp
  then some tok.payload else none

/-- Outcome of the authenticateToken middleware: either an HTTP denial
(status code and JSON body) or the request proceeds with the payload. -/
inductive AuthOutcome where
  | deny (status : Nat) (body : List (String × Prim))
  | allow (payload : JWTPayload)
deriving DecidableEq, Repr

/-- authenticateToken from auth-middleware.ts.  The extracted bearer
token (or its absence) is the explicit argument. -/
def authenticateToken (now : Nat) (secret : String) (tok : Option SignedToken) : AuthOutcome :=
  match tok with
  | none => AuthOutcome.deny 401 [("error", Prim.str "Access denied. No token provided.")]
  | some t =>
    match verifyToken now secret t with
    | none => AuthOutcome.deny 401 [("error", Prim.str "Access denied. Invalid token.")]
    | some decoded =>
      if decoded.status ≠ "approved" then
        AuthOutcome.deny 403
          [("error", Prim.str "Access denied. Account is not approved."),
           ("status", Prim.str decoded.status)]
      else AuthOutcome.allow decoded

/-- The fatal startup throws for SESSION_SECRET in routes.ts. -/
inductive StartupError where
  | missingSessionSecret
  | weakSessionSecret
deriving DecidableEq, Repr

/-- The module-level SESSION_SECRET validation in routes.ts: absent or
shorter than 32 characters throws before the server starts. -/
def validateSessionSecret : Option String → Except StartupError String
  | none => Except.error StartupError.missingSessionSecret
  | some s =>
    if s.length < 32 then Except.error StartupError.weakSessionSecret else Except.ok s

/-- The hardcoded fallback signing secret in jwt-utils.ts. -/
def defaultJwtSecret : String := "your-super-secret-jwt-key-change-in-production"

/-- JWT_SECRET initialization in jwt-utils.ts: environment value or the
hardcoded fallback; no startup check. -/
def jwtSecretFromEnv (env : Option String) : String := env.getD defaultJwtSecret

/-- Process startup over the two secrets: SESSION_SECRET is validated
fatally, JWT_SECRET is read with a silent fallback.  Yields the pair
(session secret, jwt secret) when the process starts. -/
def startupConfig (sessionSecret jwtEnv : Option String) : Except StartupError (String × String) :=
  match validateSessionSecret sessionSecret with
  | Except.error e => Except.error e
  | Except.ok s => Except.ok (s, jwtSecretFromEnv jwtEnv)

/-- MemStorage.createUser: fresh id and clock read explicit; the role
defaults to user; admin-role accounts are created already approved,
everything else pending. -/
def createUser (id : String) (now : Nat) (username password : String)
    (role : Option String) : User :=
  { id := id, username := username, password := password,
    role := role.getD "user",
    status := if role = some "admin" then "approved" else "pending",
    openaiApiKey := none, createdAt := now, lastLoginAt := none }

/-- A Partial update map over the user record: a field is changed
exactly when it is present (some). -/
structure UserUpdate where
  id : Option String := none
  username : Option String := none
  password : Option String := none
  role : Option String := none
  status : Option String := none
  openaiApiKey : Option (Option String) := none
  createdAt : Option Nat := none
  lastLoginAt : Option (Option Nat) := none
deriving DecidableEq, Repr

/-- The JS spread in MemStorage.updateUser: fields present in the update
map override, all others keep the stored value. -/
def applyUserUpdate (u : User) (upd : UserUpdate) : User :=
  { id := upd.id.getD u.id,
    username := upd.username.getD u.username,
    password := upd.password.getD u.password,
    role := upd.role.getD u.role,
    status := upd.status.getD u.status,
    openaiApiKey := upd.openaiApiKey.getD u.openaiApiKey,
    createdAt := upd.createdAt.getD u.createdAt,
    lastLoginAt := upd.lastLoginAt.getD u.lastLoginAt }

/-- MemStorage.getUserByUsername. -/
def getUserByUsername (db : List User) (username : String) : Option User :=
  db.find? (fun u => u.username == username)

/-- MemStorage.getUser (lookup by id). -/
def getUserById (db : List User) (id : String) : Option User :=
  db.find? (fun u => u.id == id)

/-- MemStorage.updateUser: returns the updated record (or none) and the
new store contents. -/
def updateUser (db : List User) (id : String) (upd : UserUpdate) :
    Option User × List User :=
  match getUserById db id with
  | none => (none, db)
  | some u =>
    let u' := applyUserUpdate u upd
    (some u', db.map (fun v => if v.id == id then u' else v))

/-- The /[A-Z]/ test from strongPasswordSchema. -/
def isUpperAZ (c : Char) : Bool := 65 ≤ c.toNat && c.toNat ≤ 90

/-- The /[0-9]/ test from strongPasswordSchema. -/
def isDigit09 (c : Char) : Bool := 48 ≤ c.toNat && c.toNat ≤ 57

/-- The punctuation class of strongPasswordSchema, in the source
regex's order (the characters 34, 123 and 125 are the double quote and
the two curly braces; the colon sits between them in the class). -/
def specialChars : List Char :=
  ['!', '@', '#', '$', '%', '^', '&', '*', '(', ')', ',', '.', '?',
   Char.ofNat 34, ':', Char.ofNat 123, Char.ofNat 125, '|', '<', '>']

/-- strongPasswordSchema from the shared schema: at least 8 characters,
one uppercase letter, one digit, one special character. -/
def strongPassword (p : String) : Bool :=
  p.length ≥ 8 && p.data.any isUpperAZ && p.data.any isDigit09
    && p.data.any (fun c => specialChars.contains c)

/-- An HTTP response body.  User objects are kept structurally visible so
the sanitization invariant can be stated about every one of them. -/
inductive RespBody where
  | msg (fields : List (String × Prim))
  | withUser (user : List (String × Prim)) (rest : List (String × Prim))
  | withUsers (users : List (List (String × Prim)))
  | withUserAndToken (user : List (String × Prim)) (token : SignedToken)
      (rest : List (String × Prim))
deriving DecidableEq

/-- Every account object embedded in a response body. -/
def RespBody.userObjs : RespBody → List (List (String × Prim))
  | RespBody.msg _ => []
  | RespBody.withUser u _ => [u]
  | RespBody.withUsers us => us
  | RespBody.withUserAndToken u _ _ => [u]

/-- The key-stripping contract: no password and no openaiApiKey key. -/
def noSensitiveKeys (o : List (String × Prim)) : Bool :=
  o.all (fun kv => !(kv.fst == "password" || kv.fst == "openaiApiKey"))

/-- The POST /api/auth/login handler: loginSchema (both fields
nonempty), lookup, bcrypt compare, approval check, last-login update,
token issue, sanitized user in the 200 body.  Returns the response and
the resulting store. -/
def loginHandler (db : List User) (username password : String) (now : Nat)
    (secret : String) : (Nat × RespBody) × List User :=
  if username.length = 0 || password.length = 0 then
    ((400, RespBody.msg [("error", Prim.str "Invalid request")]), db)
  else
    match getUserByUsername db username with
    | none => ((401, RespBody.msg [("error", Prim.str "Invalid credentials")]), db)
    | some user =>
      if bcryptCompare password user.password = false then
        ((401, RespBody.msg [("error", Prim.str "Invalid credentials")]), db)
      else if user.status ≠ "approved" then
        ((403, RespBody.msg [("error", Prim.str "Account pending approval"),
                             ("status", Prim.str user.status)]), db)
      else
        let db' := (updateUser db user.id { lastLoginAt := some (some now) }).2
        ((200, RespBody.withUserAndToken (sanitizeUser (userObj user))
            (generateToken now secret user)
            [("expiresIn", Prim.str "24h")]), db')

/-- A self-registration request body.  The role field is what an
attacker might add; publicRegistrationSchema never reads it. -/
structure RegisterBody where
  username : String
  password : String
  role : Option String := none
deriving DecidableEq, Repr

/-- The POST /api/auth/register handler: publicRegistrationSchema picks
only username (min 3) and password (strong); role is forced to user. -/
def registerHandler (db : List User) (body : RegisterBody) (freshId : String)
    (now : Nat) : (Nat × RespBody) × List User :=
  if !(body.username.length ≥ 3 && strongPassword body.password) then
    ((400, RespBody.msg [("error", Prim.str "Invalid request")]), db)
  else
    match getUserByUsername db body.username with
    | some _ => ((409, RespBody.msg [("error", Prim.str "Username already exists")]), db)
    | none =>
      let u := createUser freshId now body.username (bcryptHash body.password) (some "user")
      ((201, RespBody.withUser (sanitizeUser (userObj u))
          [("message",
            Prim.str "Account created successfully. Please wait for admin approval.")]),
        db ++ [u])

/-- An admin create-user request body (adminUserCreationSchema input). -/
structure AdminCreateBody where
  username : String
  password : String
  role : Option String := none
deriving DecidableEq, Repr

/-- The POST /api/admin/create-user handler: adminUserCreationSchema
(username min 3, strong password, role an optional enum defaulting to
user), duplicate check, hash, createUser with the chosen role. -/
def adminCreateUser (db : List User) (body : AdminCreateBody) (freshId : String)
    (now : Nat) : (Nat × RespBody) × List User :=
  let roleOk := body.role == none || body.role == some "user" || body.role == some "admin"
  if !(body.username.length ≥ 3 && strongPassword body.password && roleOk) then
    ((400, RespBody.msg [("error", Prim.str "Invalid request")]), db)
  else
    match getUserByUsername db body.username with
    | some _ => ((409, RespBody.msg [("error", Prim.str "Username already exists")]), db)
    | none =>
      let u := createUser freshId now body.username (bcryptHash body.password)
        (some (body.role.getD "user"))
      ((201, RespBody.withUser (sanitizeUser (userObj u)) []), db ++ [u])

/-- The GET /api/admin/users handler body: all users, sanitized. -/
def adminListUsers (db : List User) : Nat × RespBody :=
  (200, RespBody.withUsers (db.map (fun u => sanitizeUser (userObj u))))

/-- The PUT /api/admin/users/:id/status handler: whitelist the status
value, update only that field, respond with the sanitized result. -/
def adminUpdateStatus (db : List User) (id status : String) :
    (Nat × RespBody) × List User :=
  if !(status == "approved" || status == "rejected" || status == "pending") then
    ((400, RespBody.msg [("error", Prim.str "Invalid status")]), db)
  else
    match updateUser db id { status := some status } with
    | (none, db') => ((404, RespBody.msg [("error", Prim.str "User not found")]), db')
    | (some u, db') => ((200, RespBody.withUser (sanitizeUser (userObj u)) []), db')

/-- The GET /api/auth/me handler: look the caller up, sanitize. -/
def authMe (db : List User) (payload : JWTPayload) : Nat × RespBody :=
  match getUserById db payload.id with
  | none => (404, RespBody.msg [("error", Prim.str "User not found")])
  | some u => (200, RespBody.withUser (sanitizeUser (userObj u)) [])

theorem hexDigit_ne_colon (n : Nat) : hexDigit n ≠ ':' := by
  by_cases h : n < 16
  · unfold hexDigit hexDigits
    interval_cases n <;> decide
  · have hlen : hexDigits.length ≤ n := by
      simp only [hexDigits, List.length]
      omega
    unfold hexDigit
    rw [List.getD_eq_default _ _ hlen]
    decide

theorem colon_not_mem_hexEncode (bs : List Nat) : ':' ∉ hexEncode bs := by
  induction bs with
  | nil => simp [hexEncode]
  | cons b bs ih =>
    simp only [hexEncode, List.mem_cons]
    push_neg
    exact ⟨(hexDigit_ne_colon _).symm, (hexDigit_ne_colon _).symm, ih⟩

theorem splitOnColon_of_not_mem (xs : List Char) (h : ':' ∉ xs) :
    splitOnColon xs = [xs] := by
  induction xs with
  | nil => rfl
  | cons c cs ih =>
    simp only [List.mem_cons] at h
    push_neg at h
    rw [splitOnColon, if_neg (fun hc => h.1 hc.symm), ih h.2]

theorem splitOnColon_append (xs ys : List Char) (h : ':' ∉ xs) :
    splitOnColon (xs ++ ':' :: ys) = xs :: splitOnColon ys := by
  induction xs with
  | nil =>
    simp only [List.nil_append]
    rw [splitOnColon, if_pos rfl]
  | cons c cs ih =>
    simp only [List.mem_cons] at h
    push_neg at h
    simp only [List.cons_append]
    rw [splitOnColon, if_neg (fun hc => h.1 hc.symm), ih h.2]

theorem splitOnColon_join4 (a b c d : List Char)
    (ha : ':' ∉ a) (hb : ':' ∉ b) (hc : ':' ∉ c) (hd : ':' ∉ d) :
    splitOnColon (joinColon [a, b, c, d]) = [a, b, c, d] := by
  show splitOnColon (a ++ ':' :: joinColon [b, c, d]) = [a, b, c, d]
  rw [splitOnColon_append _ _ ha]
  show a :: splitOnColon (b ++ ':' :: joinColon [c, d]) = [a, b, c, d]
  rw [splitOnColon_append _ _ hb]
  show a :: b :: splitOnColon (c ++ ':' :: d) = [a, b, c, d]
  rw [splitOnColon_append _ _ hc, splitOnColon_of_not_mem _ hd]

theorem hexVal_hexDigit (n : Nat) (h : n < 16) : hexVal (hexDigit n) = n := by
  revert h
  revert n
  decide

theorem hexDecode_hexEncode (bs : List Nat) (h : ∀ b ∈ bs, b < 256) :
    hexDecode (hexEncode bs) = bs := by
  induction bs with
  | nil => rfl
  | cons b bs ih =>
    have hb : b < 256 := h b (List.mem_cons_self _ _)
    have h1 : b / 16 < 16 := by omega
    have h2 : b % 16 < 16 := Nat.mod_lt _ (by omega)
    rw [hexEncode, hexDecode, hexVal_hexDigit _ h1, hexVal_hexDigit _ h2,
      ih (fun x hx => h x (List.mem_cons_of_mem _ hx))]
    have := Nat.div_add_mod b 16
    congr 1
    omega

theorem gcmApplyFrom_involutive (key iv : List Nat) (i : Nat) (data : List Nat) :
    gcmApplyFrom key iv i (gcmApplyFrom key iv i data) = data := by
  induction data generalizing i with
  | nil => rfl
  | cons b bs ih =>
    rw [gcmApplyFrom, gcmApplyFrom, Nat.xor_cancel_right, ih]

theorem gcmApply_involutive (key iv : List Nat) (data : List Nat) :
    gcmApply key iv (gcmApply key iv data) = data :=
  gcmApplyFrom_involutive key iv 0 data

theorem xor_lt_256 (a b : Nat) (ha : a < 256) (hb : b < 256) : a ^^^ b < 256 := by
  have h : (256 : Nat) = 2 ^ 8 := by norm_num
  rw [h] at ha hb ⊢
  exact Nat.xor_lt_two_pow ha hb

theorem gcmApplyFrom_mem_lt (key iv : List Nat) (i : Nat) (data : List Nat)
    (h : ∀ b ∈ data, b < 256) : ∀ b ∈ gcmApplyFrom key iv i data, b < 256 := by
  induction data generalizing i with
  | nil => intro b hb; simp [gcmApplyFrom] at hb
  | cons x xs ih =>
    intro b hb
    rw [gcmApplyFrom] at hb
    rcases List.mem_cons.1 hb with h1 | h2
    · subst h1
      exact xor_lt_256 _ _ (h x (List.mem_cons_self _ _))
        (Nat.mod_lt _ (by omega))
    · exact ih (i + 1) (fun y hy => h y (List.mem_cons_of_mem _ hy)) b h2

theorem gcmTag_mem_lt (key iv ct : List Nat) : ∀ b ∈ gcmTag key iv ct, b < 256 := by
  intro b hb
  rw [gcmTag] at hb
  rcases List.mem_cons.1 hb with h1 | h2
  · subst h1; exact Nat.mod_lt _ (by omega)
  · rcases List.mem_singleton.1 h2 with h1
    subst h1; exact Nat.mod_lt _ (by omega)

/-- C1: for every plaintext API key, decrypting the blob produced by
encryptApiKey with the same master secret returns exactly the original
key (the random salt and IV are explicit, all bytes below 256). -/
theorem C1_encrypt_decrypt_roundtrip (secret : String) (salt iv apiKey : List Nat)
    (hs : ∀ b ∈ salt, b < 256) (hi : ∀ b ∈ iv, b < 256)
    (hk : ∀ b ∈ apiKey, b < 256) :
    decryptApiKey secret (encryptApiKey secret salt iv apiKey) = Except.ok apiKey := by
  have hct : ∀ b ∈ gcmApply (scryptKey secret salt) iv apiKey, b < 256 :=
    gcmApplyFrom_mem_lt _ _ 0 _ hk
  have hsplit : splitOnColon (encryptApiKey secret salt iv apiKey) =
      [hexEncode salt, hexEncode iv,
       hexEncode (gcmApply (scryptKey secret salt) iv apiKey),
       hexEncode (gcmTag (scryptKey secret salt) iv
         (gcmApply (scryptKey secret salt) iv apiKey))] := by
    rw [encryptApiKey]
    exact splitOnColon_join4 _ _ _ _ (colon_not_mem_hexEncode _)
      (colon_not_mem_hexEncode _) (colon_not_mem_hexEncode _)
      (colon_not_mem_hexEncode _)
  rw [decryptApiKey, decryptApiKeyInner]
  simp only [hsplit, List.length_cons, List.length_nil, List.getD, List.get?,
    Option.getD_some, ite_true]
  rw [hexDecode_hexEncode salt hs, hexDecode_hexEncode iv hi,
    hexDecode_hexEncode _ hct,
    hexDecode_hexEncode _ (gcmTag_mem_lt _ _ _)]
  rw [if_pos rfl, gcmApply_involutive]

/-- Witness for C1 at a concrete secret, salt, IV and key. -/
theorem C1_encrypt_decrypt_roundtrip_witness :
    decryptApiKey "master-secret" (encryptApiKey "master-secret" [1, 2] [3] [104, 105]) =
      Except.ok [104, 105] :=
  C1_encrypt_decrypt_roundtrip "master-secret" [1, 2] [3] [104, 105]
    (by decide) (by decide) (by decide)

/-- C3 counterexample: the try block distinguishes the wrong-delimiter
failure from the tag-check failure, but decryptApiKey itself rethrows
one and the same generic error for both concrete inputs, so the two
failures are not distinct at the function's boundary. -/
theorem C3_decrypt_errors_counterexample :
    decryptApiKeyInner "m" ['a', 'b'] = Except.error DecErr.invalidFormat ∧
    decryptApiKeyInner "m"
        (joinColon [hexEncode [1], hexEncode [2], hexEncode [5], hexEncode [0, 0]]) =
      Except.error DecErr.authFailed ∧
    decryptApiKey "m" ['a', 'b'] =
      decryptApiKey "m"
        (joinColon [hexEncode [1], hexEncode [2], hexEncode [5], hexEncode [0, 0]]) :=
  ⟨rfl, rfl, rfl⟩

/-- C3 amended: a wrong delimiter count fails the try block with the
invalid-format throw and a failing tag check fails it with the
authentication throw — never returning plaintext — but decryptApiKey
surfaces the same single generic error to its caller in both cases. -/
theorem C3_decrypt_failure_modes (secret : String) (blob : List Char) :
    ((splitOnColon blob).length ≠ 4 →
      decryptApiKeyInner secret blob = Except.error DecErr.invalidFormat ∧
      decryptApiKey secret blob = Except.error DecFail.failedToDecrypt) ∧
    (∀ saltHex ivHex ctHex tagHex,
      splitOnColon blob = [saltHex, ivHex, ctHex, tagHex] →
      gcmTag (scryptKey secret (hexDecode saltHex)) (hexDecode ivHex)
          (hexDecode ctHex) ≠ hexDecode tagHex →
      decryptApiKeyInner secret blob = Except.error DecErr.authFailed ∧
      decryptApiKey secret blob = Except.error DecFail.failedToDecrypt) := by
  constructor
  · intro h
    have hinner : decryptApiKeyInner secret blob = Except.error DecErr.invalidFormat := by
      rw [decryptApiKeyInner]
      simp only [if_neg h]
    exact ⟨hinner, by rw [decryptApiKey, hinner]⟩
  · intro saltHex ivHex ctHex tagHex hsplit htag
    have hinner : decryptApiKeyInner secret blob = Except.error DecErr.authFailed := by
      rw [decryptApiKeyInner]
      simp only [hsplit, List.length_cons, List.length_nil, List.getD, List.get?,
        Option.getD_some, ite_true]
      rw [if_neg htag]
    exact ⟨hinner, by rw [decryptApiKey, hinner]⟩

/-- Witness for C3 at concrete malformed and tampered blobs. -/
theorem C3_decrypt_failure_modes_witness :
    (decryptApiKeyInner "m" ['a', 'b'] = Except.error DecErr.invalidFormat ∧
      decryptApiKey "m" ['a', 'b'] = Except.error DecFail.failedToDecrypt) ∧
    (decryptApiKeyInner "m"
        (joinColon [hexEncode [1], hexEncode [2], hexEncode [5], hexEncode [0, 0]]) =
        Except.error DecErr.authFailed ∧
      decryptApiKey "m"
        (joinColon [hexEncode [1], hexEncode [2], hexEncode [5], hexEncode [0, 0]]) =
        Except.error DecFail.failedToDecrypt) :=
  ⟨(C3_decrypt_failure_modes "m" ['a', 'b']).1 (by decide),
   (C3_decrypt_failure_modes "m"
      (joinColon [hexEncode [1], hexEncode [2], hexEncode [5], hexEncode [0, 0]])).2
     (hexEncode [1]) (hexEncode [2]) (hexEncode [5]) (hexEncode [0, 0])
     (by decide) (by decide)⟩

/-- C4 counterexample: with a valid master secret and the token-signing
secret absent from the environment, the process still starts and runs
with the hardcoded fallback signing secret instead of failing fast. -/
theorem C4_startup_counterexample :
    startupConfig (some "abcdefghijklmnopqrstuvwxyz0123456789") none =
      Except.ok ("abcdefghijklmnopqrstuvwxyz0123456789", defaultJwtSecret) := rfl

/-- C4 amended: an absent or shorter-than-32-character master secret is
a fatal startup error, but an absent token-signing secret is not — the
process starts and uses the hardcoded default signing secret. -/
theorem C4_startup_validation (s : String) (jwtEnv : Option String) :
    (startupConfig none jwtEnv = Except.error StartupError.missingSessionSecret) ∧
    (s.length < 32 →
      startupConfig (some s) jwtEnv = Except.error StartupError.weakSessionSecret) ∧
    (32 ≤ s.length →
      startupConfig (some s) jwtEnv = Except.ok (s, jwtSecretFromEnv jwtEnv)) ∧
    jwtSecretFromEnv none = defaultJwtSecret := by
  refine ⟨rfl, ?_, ?_, rfl⟩
  · intro h
    rw [startupConfig, validateSessionSecret]
    simp only [if_pos h]
  · intro h
    rw [startupConfig, validateSessionSecret]
    simp only [if_neg (by omega : ¬ s.length < 32)]

/-- Witness for C4 at a short and a long concrete secret. -/
theorem C4_startup_validation_witness :
    (startupConfig (some "short") none = Except.error StartupError.weakSessionSecret) ∧
    (startupConfig (some "abcdefghijklmnopqrstuvwxyz0123456789") (some "sign") =
      Except.ok ("abcdefghijklmnopqrstuvwxyz0123456789", jwtSecretFromEnv (some "sign"))) :=
  ⟨(C4_startup_validation "short" none).2.1 (by decide),
   (C4_startup_validation "abcdefghijklmnopqrstuvwxyz0123456789" (some "sign")).2.2.1
     (by decide)⟩

theorem noSensitiveKeys_sanitizeUser (o : List (String × Prim)) :
    noSensitiveKeys (sanitizeUser o) = true := by
  rw [noSensitiveKeys, sanitizeUser, List.all_eq_true]
  intro kv hkv
  exact (List.mem_filter.1 hkv).2

/-- C2: every account object embedded in any response of the login,
registration, admin user-listing, admin status-update and auth-me
handlers has the password hash and the encrypted credential blob keys
stripped. -/
theorem C2_responses_sanitized :
    (∀ db username password now secret,
      ((loginHandler db username password now secret).1.2.userObjs.all
        noSensitiveKeys) = true) ∧
    (∀ db body freshId now,
      ((registerHandler db body freshId now).1.2.userObjs.all noSensitiveKeys) = true) ∧
    (∀ db, ((adminListUsers db).2.userObjs.all noSensitiveKeys) = true) ∧
    (∀ db id status,
      ((adminUpdateStatus db id status).1.2.userObjs.all noSensitiveKeys) = true) ∧
    (∀ db payload, ((authMe db payload).2.userObjs.all noSensitiveKeys) = true) := by
  refine ⟨?_, ?_, ?_, ?_, ?_⟩
  · intro db username password now secret
    rw [loginHandler]
    split
    · rfl
    · split
      · rfl
      · split
        · rfl
        · split
          · rfl
          · simp [RespBody.userObjs, noSensitiveKeys_sanitizeUser]
  · intro db body freshId now
    rw [registerHandler]
    split
    · rfl
    · split
      · rfl
      · simp [RespBody.userObjs, noSensitiveKeys_sanitizeUser]
  · intro db
    rw [adminListUsers]
    simp only [RespBody.userObjs, List.all_eq_true]
    intro o ho
    obtain ⟨u, hu, rfl⟩ := List.mem_map.1 ho
    exact noSensitiveKeys_sanitizeUser (userObj u)
  · intro db id status
    rw [adminUpdateStatus]
    split
    · rfl
    · split
      · rfl
      · simp [RespBody.userObjs, noSensitiveKeys_sanitizeUser]
  · intro db payload
    rw [authMe]
    split
    · rfl
    · simp [RespBody.userObjs, noSensitiveKeys_sanitizeUser]

/-- C5: a valid self-registration creates an account with role user and
status pending, and any role value in the request body is ignored (the
handler never reads it), so registration cannot escalate privileges. -/
theorem C5_registration_forces_user_pending (db : List User) (body : RegisterBody)
    (freshId : String) (now : Nat)
    (hu : body.username.length ≥ 3) (hp : strongPassword body.password = true)
    (hfresh : getUserByUsername db body.username = none) :
    (registerHandler db body freshId now).1.1 = 201 ∧
    (registerHandler db body freshId now).2 =
      db ++ [createUser freshId now body.username (bcryptHash body.password)
        (some "user")] ∧
    (createUser freshId now body.username (bcryptHash body.password)
      (some "user")).role = "user" ∧
    (createUser freshId now body.username (bcryptHash body.password)
      (some "user")).status = "pending" ∧
    (∀ r : Option String,
      registerHandler db { body with role := r } freshId now =
        registerHandler db body freshId now) := by
  have hcond : (body.username.length ≥ 3 && strongPassword body.password) = true := by
    rw [hp, Bool.and_true]
    exact decide_eq_true hu
  have hhandler : registerHandler db body freshId now =
      ((201, RespBody.withUser
          (sanitizeUser (userObj (createUser freshId now body.username
            (bcryptHash body.password) (some "user"))))
          [("message",
            Prim.str "Account created successfully. Please wait for admin approval.")]),
        db ++ [createUser freshId now body.username (bcryptHash body.password)
          (some "user")]) := by
    rw [registerHandler]
    simp only [hcond, Bool.not_true, Bool.false_eq_true, if_false, hfresh]
  refine ⟨by rw [hhandler], by rw [hhandler], rfl, rfl, fun r => rfl⟩

/-- Witness for C5 at a concrete store and request attempting to pass
an admin role. -/
theorem C5_registration_forces_user_pending_witness :
    (registerHandler [] ⟨"alice", "Str0ng!pass", some "admin"⟩ "id1" 0).1.1 = 201 ∧
    (registerHandler [] ⟨"alice", "Str0ng!pass", some "admin"⟩ "id1" 0).2 =
      [] ++ [createUser "id1" 0 "alice" (bcryptHash "Str0ng!pass") (some "user")] ∧
    (createUser "id1" 0 "alice" (bcryptHash "Str0ng!pass") (some "user")).role = "user" ∧
    (createUser "id1" 0 "alice" (bcryptHash "Str0ng!pass") (some "user")).status =
      "pending" ∧
    registerHandler [] { RegisterBody.mk "alice" "Str0ng!pass" (some "admin")
        with role := none } "id1" 0 =
      registerHandler [] ⟨"alice", "Str0ng!pass", some "admin"⟩ "id1" 0 :=
  (fun h => ⟨h.1, h.2.1, h.2.2.1, h.2.2.2.1, h.2.2.2.2 none⟩)
    (C5_registration_forces_user_pending [] ⟨"alice", "Str0ng!pass", some "admin"⟩ "id1" 0
      (by decide) (by decide) rfl)

/-- C6: token issuance is not gated on approval — generateToken embeds
whatever status the account has — and the authenticated-only gate
rejects any freshly issued token whose embedded status is not approved
with a 403 response carrying that embedded status. -/
theorem C6_issuance_ungated_gate_rejects (now : Nat) (secret : String) (user : User)
    (h : user.status ≠ "approved") :
    (generateToken now secret user).payload.status = user.status ∧
    authenticateToken now secret (some (generateToken now secret user)) =
      AuthOutcome.deny 403
        [("error", Prim.str "Access denied. Account is not approved."),
         ("status", Prim.str user.status)] := by
  have hexp : (0 : Nat) < jwtExpiresInSeconds := by decide
  refine ⟨rfl, ?_⟩
  rw [authenticateToken]
  have hverify : verifyToken now secret (generateToken now secret user) =
      some ⟨user.id, user.username, user.role, user.status⟩ := by
    simp only [verifyToken, generateToken]
    rw [if_pos]
    exact ⟨by trivial, by trivial, by trivial, by omega⟩
  rw [hverify]
  exact if_pos h

/-- Witness for C6 at a concrete pending account. -/
theorem C6_issuance_ungated_gate_rejects_witness :
    (generateToken 0 "sign" ⟨"u1", "bob", "pw", "user", "pending", none, 0, none⟩).payload.status =
      "pending" ∧
    authenticateToken 0 "sign"
        (some (generateToken 0 "sign" ⟨"u1", "bob", "pw", "user", "pending", none, 0, none⟩)) =
      AuthOutcome.deny 403
        [("error", Prim.str "Access denied. Account is not approved."),
         ("status", Prim.str "pending")] :=
  C6_issuance_ungated_gate_rejects 0 "sign" ⟨"u1", "bob", "pw", "user", "pending", none, 0, none⟩
    (by decide)

/-- C7: verifying a freshly issued, unexpired token under the same
signing secret returns a payload whose id, username, role and status
match the account exactly; and any token failing the signature, issuer,
audience or expiry check verifies to none rather than raising. -/
theorem C7_verify_issue_roundtrip (secret : String) (user : User) (t0 t1 : Nat)
    (h : t1 < t0 + jwtExpiresInSeconds) :
    verifyToken t1 secret (generateToken t0 secret user) =
      some ⟨user.id, user.username, user.role, user.status⟩ ∧
    (∀ (t : Nat) (tok : SignedToken),
      (tok.sig ≠ hmacSign secret (tok.payload, tok.iss, tok.aud, tok.exp) ∨
       tok.iss ≠ "sarvatra-ai" ∨ tok.aud ≠ "sarvatra-ai-users" ∨ tok.exp ≤ t) →
      verifyToken t secret tok = none) := by
  constructor
  · simp only [verifyToken, generateToken]
    rw [if_pos]
    exact ⟨by trivial, by trivial, by trivial, h⟩
  · intro t tok hfail
    rw [verifyToken, if_neg]
    intro ⟨h1, h2, h3, h4⟩
    rcases hfail with h | h | h | h
    · exact h h1
    · exact h h2
    · exact h h3
    · omega

/-- Witness for C7 at a concrete account and clock, and at a concrete
token carrying a wrong issuer tag. -/
theorem C7_verify_issue_roundtrip_witness :
    verifyToken 5 "sign" (generateToken 0 "sign"
        ⟨"u1", "bob", "pw", "admin", "approved", none, 0, none⟩) =
      some ⟨"u1", "bob", "admin", "approved"⟩ ∧
    verifyToken 5 "sign"
        ⟨⟨"u1", "bob", "admin", "approved"⟩, "bad-issuer", "sarvatra-ai-users", 100,
          hmacSign "sign"
            (⟨"u1", "bob", "admin", "approved"⟩, "bad-issuer", "sarvatra-ai-users", 100)⟩ =
      none :=
  (fun h => ⟨h.1, h.2 5
      ⟨⟨"u1", "bob", "admin", "approved"⟩, "bad-issuer", "sarvatra-ai-users", 100,
        hmacSign "sign"
          (⟨"u1", "bob", "admin", "approved"⟩, "bad-issuer", "sarvatra-ai-users", 100)⟩
      (Or.inr (Or.inl (by decide)))⟩)
    (C7_verify_issue_roundtrip "sign" ⟨"u1", "bob", "pw", "admin", "approved", none, 0, none⟩
      0 5 (by decide))

/-- C8: an administrator-created account is approved immediately when
the requested role is admin, and defaults to pending for the regular
role (or when no role is supplied). -/
theorem C8_admin_create_status (db : List User) (body : AdminCreateBody)
    (freshId : String) (now : Nat)
    (hu : body.username.length ≥ 3) (hp : strongPassword body.password = true)
    (hr : body.role = none ∨ body.role = some "user" ∨ body.role = some "admin")
    (hfresh : getUserByUsername db body.username = none) :
    (adminCreateUser db body freshId now).1.1 = 201 ∧
    (adminCreateUser db body freshId now).2 =
      db ++ [createUser freshId now body.username (bcryptHash body.password)
        (some (body.role.getD "user"))] ∧
    (body.role = some "admin" →
      (createUser freshId now body.username (bcryptHash body.password)
        (some (body.role.getD "user"))).status = "approved") ∧
    ((body.role = some "user" ∨ body.role = none) →
      (createUser freshId now body.username (bcryptHash body.password)
        (some (body.role.getD "user"))).status = "pending") := by
  have hrole : (body.role == none || body.role == some "user"
      || body.role == some "admin") = true := by
    rcases hr with h | h | h <;> simp [h]
  have hcond : (body.username.length ≥ 3 && strongPassword body.password
      && (body.role == none || body.role == some "user"
          || body.role == some "admin")) = true := by
    rw [hrole, hp, Bool.and_true, Bool.and_true]
    exact decide_eq_true hu
  have hhandler : adminCreateUser db body freshId now =
      ((201, RespBody.withUser
          (sanitizeUser (userObj (createUser freshId now body.username
            (bcryptHash body.password) (some (body.role.getD "user"))))) []),
        db ++ [createUser freshId now body.username (bcryptHash body.password)
          (some (body.role.getD "user"))]) := by
    rw [adminCreateUser]
    simp only [hcond, Bool.not_true, Bool.false_eq_true, if_false, hfresh]
  refine ⟨by rw [hhandler], by rw [hhandler], ?_, ?_⟩
  · intro h
    rw [createUser]
    simp only [h]
    rfl
  · intro h
    rw [createUser]
    rcases h with h | h <;> simp [h]

/-- Witness for C8 at a concrete admin-role creation request. -/
theorem C8_admin_create_status_witness :
    (adminCreateUser [] ⟨"boss", "Str0ng!pass", some "admin"⟩ "id2" 0).1.1 = 201 ∧
    (adminCreateUser [] ⟨"boss", "Str0ng!pass", some "admin"⟩ "id2" 0).2 =
      [] ++ [createUser "id2" 0 "boss" (bcryptHash "Str0ng!pass")
        (some ((some "admin").getD "user"))] ∧
    (createUser "id2" 0 "boss" (bcryptHash "Str0ng!pass")
      (some ((some "admin").getD "user"))).status = "approved" :=
  (fun h => ⟨h.1, h.2.1, h.2.2.1 rfl⟩)
    (C8_admin_create_status [] ⟨"boss", "Str0ng!pass", some "admin"⟩ "id2" 0
      (by decide) (by decide) (Or.inr (Or.inr rfl)) rfl)

/-- C9: a login with an unknown username and a login with a known
username but a wrong password produce identical responses — the same
401 status and the same generic body — revealing nothing about which
factor failed. -/
theorem C9_login_failures_indistinguishable (db : List User) (u1 p1 u2 p2 : String)
    (now : Nat) (secret : String)
    (h1 : u1.length ≠ 0) (h2 : p1.length ≠ 0) (h3 : u2.length ≠ 0) (h4 : p2.length ≠ 0)
    (hno : getUserByUsername db u1 = none)
    (user : User) (hyes : getUserByUsername db u2 = some user)
    (hbad : bcryptCompare p2 user.password = false) :
    loginHandler db u1 p1 now secret = loginHandler db u2 p2 now secret ∧
    (loginHandler db u1 p1 now secret).1.1 = 401 ∧
    (loginHandler db u1 p1 now secret).1.2 =
      RespBody.msg [("error", Prim.str "Invalid credentials")] := by
  have e1 : loginHandler db u1 p1 now secret =
      ((401, RespBody.msg [("error", Prim.str "Invalid credentials")]), db) := by
    rw [loginHandler]
    rw [if_neg (by simp [h1, h2])]
    rw [hno]
  have e2 : loginHandler db u2 p2 now secret =
      ((401, RespBody.msg [("error", Prim.str "Invalid credentials")]), db) := by
    rw [loginHandler]
    rw [if_neg (by simp [h3, h4])]
    rw [hyes]
    simp only [hbad, if_pos]
  rw [e1, e2]
  exact ⟨rfl, rfl, rfl⟩

/-- Witness for C9 at a concrete store with one approved account. -/
theorem C9_login_failures_indistinguishable_witness :
    loginHandler [⟨"u1", "bob", bcryptHash "Right1!aA", "user", "approved", none, 0, none⟩]
        "ghost" "whatever" 0 "sign" =
      loginHandler [⟨"u1", "bob", bcryptHash "Right1!aA", "user", "approved", none, 0, none⟩]
        "bob" "wrongpass" 0 "sign" ∧
    (loginHandler [⟨"u1", "bob", bcryptHash "Right1!aA", "user", "approved", none, 0, none⟩]
        "ghost" "whatever" 0 "sign").1.1 = 401 ∧
    (loginHandler [⟨"u1", "bob", bcryptHash "Right1!aA", "user", "approved", none, 0, none⟩]
        "ghost" "whatever" 0 "sign").1.2 =
      RespBody.msg [("error", Prim.str "Invalid credentials")] :=
  C9_login_failures_indistinguishable
    [⟨"u1", "bob", bcryptHash "Right1!aA", "user", "approved", none, 0, none⟩]
    "ghost" "whatever" "bob" "wrongpass" 0 "sign"
    (by decide) (by decide) (by decide) (by decide) (by decide)
    ⟨"u1", "bob", bcryptHash "Right1!aA", "user", "approved", none, 0, none⟩
    (by decide) (by decide)

/-- C10: the spread in updateUser changes exactly the fields present in
the update map; a status-only update rewrites only the status (keeping
the password hash and the credential blob), a last-login-only update
rewrites only lastLoginAt, and updateUser applies this to the looked-up
record. -/
theorem C10_update_frame (u : User) (upd : UserUpdate) (s : String) (t : Nat) :
    (upd.id = none → (applyUserUpdate u upd).id = u.id) ∧
    (upd.username = none → (applyUserUpdate u upd).username = u.username) ∧
    (upd.password = none → (applyUserUpdate u upd).password = u.password) ∧
    (upd.role = none → (applyUserUpdate u upd).role = u.role) ∧
    (upd.status = none → (applyUserUpdate u upd).status = u.status) ∧
    (upd.openaiApiKey = none →
      (applyUserUpdate u upd).openaiApiKey = u.openaiApiKey) ∧
    (upd.createdAt = none → (applyUserUpdate u upd).createdAt = u.createdAt) ∧
    (upd.lastLoginAt = none → (applyUserUpdate u upd).lastLoginAt = u.lastLoginAt) ∧
    (applyUserUpdate u { status := some s } = { u with status := s }) ∧
    (applyUserUpdate u { lastLoginAt := some (some t) } =
      { u with lastLoginAt := some t }) ∧
    (∀ db id, (updateUser db id upd).1 =
      (getUserById db id).map (fun v => applyUserUpdate v upd)) := by
  refine ⟨?_, ?_, ?_, ?_, ?_, ?_, ?_, ?_, rfl, rfl, ?_⟩
  all_goals try (intro h; rw [applyUserUpdate]; rw [h]; rfl)
  intro db id
  rw [updateUser]
  cases hfind : getUserById db id with
  | none => rfl
  | some v => rfl

/-- Witness for C10: a concrete status-only update preserves the
password hash and the credential blob, and a concrete last-login-only
update changes nothing but lastLoginAt. -/
theorem C10_update_frame_witness :
    (applyUserUpdate ⟨"u1", "bob", "hash", "user", "pending", some "blob", 7, none⟩
        (UserUpdate.mk none none none none (some "approved") none none none)).password =
      "hash" ∧
    (applyUserUpdate ⟨"u1", "bob", "hash", "user", "pending", some "blob", 7, none⟩
        (UserUpdate.mk none none none none (some "approved") none none none)).openaiApiKey =
      some "blob" ∧
    applyUserUpdate ⟨"u1", "bob", "hash", "user", "pending", some "blob", 7, none⟩
        { status := some "wait" } =
      { User.mk "u1" "bob" "hash" "user" "pending" (some "blob") 7 none
          with status := "wait" } ∧
    applyUserUpdate ⟨"u1", "bob", "hash", "user", "pending", some "blob", 7, none⟩
        { lastLoginAt := some (some 9) } =
      { User.mk "u1" "bob" "hash" "user" "pending" (some "blob") 7 none
          with lastLoginAt := some 9 } :=
  (fun h => ⟨h.2.2.1 rfl, h.2.2.2.2.2.1 rfl, h.2.2.2.2.2.2.2.2.1,
      h.2.2.2.2.2.2.2.2.2.1⟩)
    (C10_update_frame ⟨"u1", "bob", "hash", "user", "pending", some "blob", 7, none⟩
      (UserUpdate.mk none none none none (some "approved") none none none) "wait" 9)
